import Mathlib

/-!
# flutterpy: the native registration boundary

A verification development for the registration shim of the flutterpy plugin.

* `src/linux/flutterpy_plugin_c_api.cc` defines one function,
  `flutterpy_plugin_c_api_register_with_registrar`, whose body is a single call of
  `flutterpy_plugin_register_with_registrar` on its own argument.
* `src/linux/include/flutterpy/flutterpy_plugin_c_api.h` and
  `src/windows/include/flutterpy/flutterpy_plugin.h` declare the two entry points
  behind a `FLUTTER_PLUGIN_EXPORT` macro chosen by `#ifdef FLUTTER_PLUGIN_IMPL`.

The first part embeds the C function over an explicit world (the host state plus
a log of call and return events).  The second part embeds the two headers as
lists of preprocessor lines and runs a small preprocessor over them.
-/

namespace Flutterpy

/-! ## Part 1: calls, worlds and the forwarding function -/

/-- A value of type `FlPluginRegistrar*`: an address, with `0` the null pointer.
The shim never dereferences it and does no arithmetic on it. -/
abbrev FlPluginRegistrarPtr := Nat

/-- The null pointer. -/
def NULL : FlPluginRegistrarPtr := 0

/-- What an observer of the calling sequence sees: a function being entered with
its argument, and a function returning to its caller. -/
inductive Event where
  | call (fn : String) (arg : FlPluginRegistrarPtr)
  | ret (fn : String)
  deriving DecidableEq, Repr

/-- The world a call runs in: `host` is everything the host framework and the
plugin implementation own (the translation unit of the shim declares no
variable of its own, so it contributes no component), and `trace` is the log of
events so far, oldest first. -/
structure World (σ : Type) where
  host : σ
  trace : List Event

/-- A `void` routine defined outside the translation unit.  It is given the
pointer and the host state, and yields the host state it leaves behind together
with either normal completion or a failure `e : ε` (for instance an exception
passing through the frame). -/
abbrev Routine (σ ε : Type) := FlPluginRegistrarPtr → σ → Except ε Unit × σ

/-- A computation of the embedded C fragment: a world transformer that either
completes or fails, and that keeps the world reached in both cases. -/
abbrev Exec (σ ε : Type) := World σ → Except ε Unit × World σ

/-- Append one event to the log. -/
def World.log {σ : Type} (w : World σ) (e : Event) : World σ :=
  { w with trace := w.trace ++ [e] }

/-- The body of a routine defined elsewhere, run on the host part of the world.
It has no access to the log. -/
def runRoutine {σ ε : Type} (r : Routine σ ε) (arg : FlPluginRegistrarPtr) : Exec σ ε :=
  fun w => ((r arg w.host).1, { w with host := (r arg w.host).2 })

/-- The call expression `fn(arg);` for a `void` function of one pointer
argument: the entry is logged, the body runs, and the return is logged when the
body completes.  A failing body does not return: the failure is handed on to the
caller unchanged and no return event is logged. -/
def callFn {σ ε : Type} (fn : String) (body : FlPluginRegistrarPtr → Exec σ ε)
    (arg : FlPluginRegistrarPtr) : Exec σ ε :=
  fun w =>
    match body arg (w.log (Event.call fn arg)) with
    | (Except.ok (), w1) => (Except.ok (), w1.log (Event.ret fn))
    | (Except.error e, w1) => (Except.error e, w1)

/-- The linker name of the function the shim forwards to. -/
def downstreamName : String := "flutterpy_plugin_register_with_registrar"

/-- The linker name of the shim. -/
def shimName : String := "flutterpy_plugin_c_api_register_with_registrar"

/-- The function of `src/linux/flutterpy_plugin_c_api.cc`, lines 13 to 15:
```
void flutterpy_plugin_c_api_register_with_registrar(FlPluginRegistrar* registrar) {
  flutterpy_plugin_register_with_registrar(registrar);
}
```
The callee is defined in `flutterpy_plugin.cc`, outside the sources at hand, so
it is a parameter. -/
def flutterpy_plugin_c_api_register_with_registrar {σ ε : Type}
    (flutterpy_plugin_register_with_registrar : Routine σ ε)
    (registrar : FlPluginRegistrarPtr) : Exec σ ε :=
  callFn downstreamName (runRoutine flutterpy_plugin_register_with_registrar) registrar

/-- The host calling the shim once: `flutterpy_plugin_c_api_register_with_registrar(H);`. -/
def hostCallsShim {σ ε : Type} (downstream : Routine σ ε) (H : FlPluginRegistrarPtr) :
    Exec σ ε :=
  callFn shimName (flutterpy_plugin_c_api_register_with_registrar downstream) H

/-- The host calling the downstream routine itself, with no shim in between:
`flutterpy_plugin_register_with_registrar(H);`. -/
def hostCallsDownstream {σ ε : Type} (downstream : Routine σ ε) (H : FlPluginRegistrarPtr) :
    Exec σ ε :=
  callFn downstreamName (runRoutine downstream) H

/-- The arguments of the calls of the downstream routine found in a log, in
order. -/
def downstreamCalls : List Event → List FlPluginRegistrarPtr
  | [] => []
  | Event.call fn arg :: rest =>
      if fn = downstreamName then arg :: downstreamCalls rest else downstreamCalls rest
  | Event.ret _ :: rest => downstreamCalls rest

/-- The events the shim itself accounts for removed from a log: what is left is
what the rest of the program did. -/
def withoutShimEvents : List Event → List Event
  | [] => []
  | Event.call fn arg :: rest =>
      if fn = shimName then withoutShimEvents rest else Event.call fn arg :: withoutShimEvents rest
  | Event.ret fn :: rest =>
      if fn = shimName then withoutShimEvents rest else Event.ret fn :: withoutShimEvents rest

/-- The host calling the shim on each handle of a list in turn.  Every call is
made, whatever the earlier ones did; the outcomes are collected in order. -/
def hostCallsShimEach {σ ε : Type} (downstream : Routine σ ε) :
    List FlPluginRegistrarPtr → World σ → List (Except ε Unit) × World σ
  | [], w => ([], w)
  | H :: rest, w =>
      let r := hostCallsShim downstream H w
      let rs := hostCallsShimEach downstream rest r.2
      (r.1 :: rs.1, rs.2)

/-- The host calling the downstream routine itself on each handle of a list in
turn. -/
def hostCallsDownstreamEach {σ ε : Type} (downstream : Routine σ ε) :
    List FlPluginRegistrarPtr → World σ → List (Except ε Unit) × World σ
  | [], w => ([], w)
  | H :: rest, w =>
      let r := hostCallsDownstream downstream H w
      let rs := hostCallsDownstreamEach downstream rest r.2
      (r.1 :: rs.1, rs.2)

/-! ## Part 2: the two headers under the preprocessor -/

/-- One line of a header, already split into preprocessing tokens. -/
inductive PPLine where
  /-- The line `#ifdef NAME`, or `#if defined(NAME)`. -/
  | ifdef (name : String)
  /-- The line `#ifndef NAME`. -/
  | ifndef (name : String)
  /-- The line `#else`. -/
  | hashElse
  /-- The line `#endif`. -/
  | hashEndif
  /-- The line `#define NAME body`, an object-like definition. -/
  | define (name : String) (body : List String)
  /-- The line `#include <header>` of a header of the Flutter SDK. -/
  | hashInclude (header : String)
  /-- A line of program text. -/
  | text (tokens : List String)
  deriving DecidableEq, Repr

/-- The preprocessor between two lines: the object-like definitions in force,
the open conditionals (innermost first, `true` for a branch being taken) and the
tokens emitted so far. -/
structure PPState where
  defs : List (String × List String)
  conds : List Bool
  out : List String

/-- Whether `name` is defined. -/
def PPState.isDefined (st : PPState) (name : String) : Bool :=
  st.defs.any (fun d => d.1 == name)

/-- Whether the current line is kept: every open conditional is on a taken
branch. -/
def PPState.active (st : PPState) : Bool :=
  st.conds.all id

/-- The replacement of one token: the body of its definition when it names one
(the latest definition first), the token itself when it does not. -/
def PPState.expandToken (st : PPState) (tok : String) : List String :=
  match st.defs.find? (fun d => d.1 == tok) with
  | some d => d.2
  | none => [tok]

/-- The preprocessor on one line.  Conditionals are tracked on a stack, a
definition or a line of text takes effect only where every open conditional is
on a taken branch, and each token of a text line is replaced by the body of its
definition.  The headers of the Flutter SDK named by `#include` are not part of
this repository; their own declarations are left out, and they are taken not to
define `FLUTTER_PLUGIN_IMPL` or `FLUTTER_PLUGIN_EXPORT`. -/
def PPState.step (st : PPState) : PPLine → PPState
  | PPLine.ifdef name => { st with conds := st.isDefined name :: st.conds }
  | PPLine.ifndef name => { st with conds := (!st.isDefined name) :: st.conds }
  | PPLine.hashElse =>
      match st.conds with
      | [] => st
      | c :: rest => { st with conds := (!c) :: rest }
  | PPLine.hashEndif => { st with conds := st.conds.tail }
  | PPLine.define name body =>
      if st.active then { st with defs := (name, body) :: st.defs } else st
  | PPLine.hashInclude _ => st
  | PPLine.text tokens =>
      if st.active then { st with out := st.out ++ tokens.flatMap st.expandToken } else st

/-- The token sequence a header leaves in a translation unit that starts with
the definitions `defs`. -/
def preprocess (defs : List (String × List String)) (header : List PPLine) : List String :=
  (header.foldl PPState.step { defs := defs, conds := [], out := [] }).out

/-- The definitions a build starts from.  `FLUTTER_PLUGIN_IMPL` is defined (by
the build of the plugin library itself) exactly when `impl` holds, and
`__cplusplus` exactly when the translation unit is C++. -/
def buildDefs (impl cplusplus : Bool) : List (String × List String) :=
  (if impl then [("FLUTTER_PLUGIN_IMPL", [])] else []) ++
  (if cplusplus then [("__cplusplus", ["201703L"])] else [])

/-- The file `src/linux/include/flutterpy/flutterpy_plugin_c_api.h`, line by line. -/
def linuxHeader : List PPLine :=
  [ PPLine.ifndef "FLUTTER_PLUGIN_FLUTTERPY_PLUGIN_C_API_H_",
    PPLine.define "FLUTTER_PLUGIN_FLUTTERPY_PLUGIN_C_API_H_" [],
    PPLine.hashInclude "flutter_linux/flutter_linux.h",
    PPLine.ifdef "FLUTTER_PLUGIN_IMPL",
    PPLine.define "FLUTTER_PLUGIN_EXPORT"
      ["__attribute__", "(", "(", "visibility", "(", "\"default\"", ")", ")", ")"],
    PPLine.hashElse,
    PPLine.define "FLUTTER_PLUGIN_EXPORT" [],
    PPLine.hashEndif,
    PPLine.ifdef "__cplusplus",
    PPLine.text ["extern", "\"C\"", "\x7b"],
    PPLine.hashEndif,
    PPLine.text ["FLUTTER_PLUGIN_EXPORT", "void",
      "flutterpy_plugin_c_api_register_with_registrar", "("],
    PPLine.text ["FlPluginRegistrar", "*", "registrar", ")", ";"],
    PPLine.ifdef "__cplusplus",
    PPLine.text ["\x7d"],
    PPLine.hashEndif,
    PPLine.hashEndif ]

/-- The file `src/windows/include/flutterpy/flutterpy_plugin.h`, line by line. -/
def windowsHeader : List PPLine :=
  [ PPLine.ifndef "FLUTTER_PLUGIN_FLUTTERPY_PLUGIN_H_",
    PPLine.define "FLUTTER_PLUGIN_FLUTTERPY_PLUGIN_H_" [],
    PPLine.hashInclude "flutter/plugin_registrar_windows.h",
    PPLine.ifdef "FLUTTER_PLUGIN_IMPL",
    PPLine.define "FLUTTER_PLUGIN_EXPORT" ["__declspec", "(", "dllexport", ")"],
    PPLine.hashElse,
    PPLine.define "FLUTTER_PLUGIN_EXPORT" ["__declspec", "(", "dllimport", ")"],
    PPLine.hashEndif,
    PPLine.ifdef "__cplusplus",
    PPLine.text ["extern", "\"C\"", "\x7b"],
    PPLine.hashEndif,
    PPLine.text ["FLUTTER_PLUGIN_EXPORT", "void", "FlutterpyPluginRegisterWithRegistrar", "("],
    PPLine.text ["FlutterDesktopPluginRegistrarRef", "registrar", ")", ";"],
    PPLine.ifdef "__cplusplus",
    PPLine.text ["\x7d"],
    PPLine.hashEndif,
    PPLine.hashEndif ]

/-- A declaration of a function: the tokens in front of the return type, the
return type, the name, and the parameters (each the tokens of its declarator). -/
structure FunDecl where
  annotation : List String
  returnType : String
  name : String
  params : List (List String)
  deriving DecidableEq, Repr

/-- The tokens of a parameter list split at the commas of the top level, up to
its closing parenthesis. -/
def splitParams : List String → List String → List (List String)
  | [], cur => [cur]
  | tok :: rest, cur =>
      if tok = ")" then [cur]
      else if tok = "," then cur :: splitParams rest []
      else splitParams rest (cur ++ [tok])

/-- The declaration of a `void` function read off a token sequence, the
linkage block around it put aside: everything in front of `void` is the
annotation, the next token is the name, and the parameters follow in
parentheses. -/
def parseVoidDecl (toks : List String) : Option FunDecl :=
  let body := match toks with
    | "extern" :: "\"C\"" :: "\x7b" :: rest => rest
    | other => other
  match body.dropWhile (fun t => t != "void") with
  | "void" :: name :: "(" :: rest =>
      some { annotation := body.takeWhile (fun t => t != "void"),
             returnType := "void",
             name := name,
             params := splitParams rest [] }
  | _ => none

/-- What the annotation in front of a declaration in a header says about the
symbol, for a translation unit that includes the header. -/
inductive Visibility where
  /-- The symbol is made visible outside the library being built. -/
  | exported
  /-- The declaration refers to a symbol supplied by another library. -/
  | imported
  deriving DecidableEq, Repr

/-- The meaning of the annotations the two headers can produce; `none` for
any other token sequence.  `__attribute__((visibility("default")))` and
`__declspec(dllexport)` export the symbol and `__declspec(dllimport)` imports
it.  The empty annotation, which only the Linux header produces, leaves an
ordinary declaration with external linkage: ELF has no import marking, and such
a declaration is the form under which a consumer refers to a symbol that the
shared library defines, so it counts as imported. -/
def visibilityOf : List String → Option Visibility
  | [] => some Visibility.imported
  | ["__attribute__", "(", "(", "visibility", "(", "\"default\"", ")", ")", ")"] =>
      some Visibility.exported
  | ["__declspec", "(", "dllexport", ")"] => some Visibility.exported
  | ["__declspec", "(", "dllimport", ")"] => some Visibility.imported
  | _ => none

/-- The declaration the Linux header gives a translation unit. -/
def linuxDecl (impl cplusplus : Bool) : Option FunDecl :=
  parseVoidDecl (preprocess (buildDefs impl cplusplus) linuxHeader)

/-- The declaration the Windows header gives a translation unit. -/
def windowsDecl (impl cplusplus : Bool) : Option FunDecl :=
  parseVoidDecl (preprocess (buildDefs impl cplusplus) windowsHeader)

/-! ### Helper lemmas -/

theorem downstreamCalls_append (xs ys : List Event) :
    downstreamCalls (xs ++ ys) = downstreamCalls xs ++ downstreamCalls ys := by
  induction xs with
  | nil => rfl
  | cons e rest ih =>
    cases e with
    | call fn arg =>
      by_cases h : fn = downstreamName <;> simp [downstreamCalls, h, ih]
    | ret fn => simp [downstreamCalls, ih]

theorem shimName_ne_downstreamName : shimName ≠ downstreamName := by decide

/-- The complete effect of one call of the shim by the host, by the outcome of
the downstream routine. -/
theorem hostCallsShim_eq {σ ε : Type} (d : Routine σ ε) (H : FlPluginRegistrarPtr)
    (w : World σ) :
    hostCallsShim d H w =
      match (d H w.host).1 with
      | Except.ok () =>
          (Except.ok (),
            { host := (d H w.host).2,
              trace := w.trace ++ [Event.call shimName H, Event.call downstreamName H,
                Event.ret downstreamName, Event.ret shimName] })
      | Except.error e =>
          (Except.error e,
            { host := (d H w.host).2,
              trace := w.trace ++ [Event.call shimName H, Event.call downstreamName H] }) := by
  unfold hostCallsShim flutterpy_plugin_c_api_register_with_registrar callFn runRoutine
  rcases h : (d H w.host).1 with e | ⟨⟩ <;> simp [World.log, h]


/-- The complete effect of one direct call of the downstream routine by the
host, by the outcome of the routine. -/
theorem hostCallsDownstream_eq {σ ε : Type} (d : Routine σ ε) (H : FlPluginRegistrarPtr)
    (w : World σ) :
    hostCallsDownstream d H w =
      match (d H w.host).1 with
      | Except.ok () =>
          (Except.ok (),
            { host := (d H w.host).2,
              trace := w.trace ++ [Event.call downstreamName H, Event.ret downstreamName] })
      | Except.error e =>
          (Except.error e,
            { host := (d H w.host).2,
              trace := w.trace ++ [Event.call downstreamName H] }) := by
  unfold hostCallsDownstream callFn runRoutine
  rcases h : (d H w.host).1 with e | ⟨⟩ <;> simp [World.log, h]

theorem hostCallsShim_outcome {σ ε : Type} (d : Routine σ ε) (H : FlPluginRegistrarPtr)
    (w : World σ) : (hostCallsShim d H w).1 = (d H w.host).1 := by
  rw [hostCallsShim_eq]
  rcases h : (d H w.host).1 with e | ⟨⟩ <;> rfl

theorem hostCallsShim_host {σ ε : Type} (d : Routine σ ε) (H : FlPluginRegistrarPtr)
    (w : World σ) : (hostCallsShim d H w).2.host = (d H w.host).2 := by
  rw [hostCallsShim_eq]
  rcases h : (d H w.host).1 with e | ⟨⟩ <;> rfl

theorem hostCallsShim_trace {σ ε : Type} (d : Routine σ ε) (H : FlPluginRegistrarPtr)
    (w : World σ) :
    (hostCallsShim d H w).2.trace =
      w.trace ++ (Event.call shimName H :: Event.call downstreamName H ::
        (match (d H w.host).1 with
         | Except.ok _ => [Event.ret downstreamName, Event.ret shimName]
         | Except.error _ => [])) := by
  rw [hostCallsShim_eq]
  rcases h : (d H w.host).1 with e | ⟨⟩ <;> rfl

theorem hostCallsShim_downstreamCalls {σ ε : Type} (d : Routine σ ε)
    (H : FlPluginRegistrarPtr) (w : World σ) :
    downstreamCalls (hostCallsShim d H w).2.trace = downstreamCalls w.trace ++ [H] := by
  rw [hostCallsShim_trace, downstreamCalls_append]
  rcases h : (d H w.host).1 with e | ⟨⟩ <;>
    simp [downstreamCalls, shimName_ne_downstreamName]

theorem hostCallsDownstream_outcome {σ ε : Type} (d : Routine σ ε) (H : FlPluginRegistrarPtr)
    (w : World σ) : (hostCallsDownstream d H w).1 = (d H w.host).1 := by
  rw [hostCallsDownstream_eq]
  rcases h : (d H w.host).1 with e | ⟨⟩ <;> rfl

theorem hostCallsDownstream_host {σ ε : Type} (d : Routine σ ε) (H : FlPluginRegistrarPtr)
    (w : World σ) : (hostCallsDownstream d H w).2.host = (d H w.host).2 := by
  rw [hostCallsDownstream_eq]
  rcases h : (d H w.host).1 with e | ⟨⟩ <;> rfl

theorem withoutShimEvents_append (xs ys : List Event) :
    withoutShimEvents (xs ++ ys) = withoutShimEvents xs ++ withoutShimEvents ys := by
  induction xs with
  | nil => rfl
  | cons e rest ih =>
    cases e with
    | call fn arg => by_cases h : fn = shimName <;> simp [withoutShimEvents, h, ih]
    | ret fn => by_cases h : fn = shimName <;> simp [withoutShimEvents, h, ih]

/-- Calling through the shim and calling directly agree on outcomes and on the
host state, from any two worlds that agree on the host state. -/
theorem hostCallsShimEach_agrees {σ ε : Type} (d : Routine σ ε)
    (hs : List FlPluginRegistrarPtr) (w w1 : World σ) (hw : w.host = w1.host) :
    (hostCallsShimEach d hs w).1 = (hostCallsDownstreamEach d hs w1).1 ∧
      (hostCallsShimEach d hs w).2.host = (hostCallsDownstreamEach d hs w1).2.host := by
  induction hs generalizing w w1 with
  | nil => exact ⟨rfl, hw⟩
  | cons H rest ih =>
    have hhost : (hostCallsShim d H w).2.host = (hostCallsDownstream d H w1).2.host := by
      rw [hostCallsShim_host, hostCallsDownstream_host, hw]
    have hout : (hostCallsShim d H w).1 = (hostCallsDownstream d H w1).1 := by
      rw [hostCallsShim_outcome, hostCallsDownstream_outcome, hw]
    obtain ⟨h1, h2⟩ := ih _ _ hhost
    simp only [hostCallsShimEach, hostCallsDownstreamEach]
    exact ⟨by rw [hout, h1], h2⟩

theorem hostCallsShimEach_downstreamCalls {σ ε : Type} (d : Routine σ ε)
    (hs : List FlPluginRegistrarPtr) (w : World σ) :
    downstreamCalls (hostCallsShimEach d hs w).2.trace = downstreamCalls w.trace ++ hs := by
  induction hs generalizing w with
  | nil => simp [hostCallsShimEach]
  | cons H rest ih =>
    simp only [hostCallsShimEach]
    rw [ih, hostCallsShim_downstreamCalls]
    simp

/-! ## The forwarding function -/

/-- C1: for every registrar handle `H`, every downstream routine and every
starting world, one call of `flutterpy_plugin_c_api_register_with_registrar(H)`
by the host adds to the log one call of `flutterpy_plugin_register_with_registrar`
and no more, with the very handle `H`; when the routine completes, its return is
logged before the return of the shim, and the shim returns; when it fails,
neither returns.  The outcome of the outer call is the outcome of the routine. -/
theorem C1_forwards_once_with_same_handle {σ ε : Type} (d : Routine σ ε)
    (H : FlPluginRegistrarPtr) (w : World σ) :
    (hostCallsShim d H w).2.trace =
        w.trace ++ (Event.call shimName H :: Event.call downstreamName H ::
          (match (d H w.host).1 with
           | Except.ok _ => [Event.ret downstreamName, Event.ret shimName]
           | Except.error _ => [])) ∧
      downstreamCalls (hostCallsShim d H w).2.trace = downstreamCalls w.trace ++ [H] ∧
      (hostCallsShim d H w).1 = (d H w.host).1 :=
  ⟨hostCallsShim_trace d H w, hostCallsShim_downstreamCalls d H w, hostCallsShim_outcome d H w⟩

/-- C2: for every downstream routine, every starting world and every handle `H`,
the host state after the host calls the shim with `H` is the host state after
the host calls the downstream routine directly with `H`, namely the state the
routine leaves; the outcomes agree as well, and once the entry and return of the
shim are taken out of the log, the two logs are the same. -/
theorem C2_same_host_state_as_direct_call {σ ε : Type} (d : Routine σ ε)
    (H : FlPluginRegistrarPtr) (w : World σ) :
    (hostCallsShim d H w).2.host = (hostCallsDownstream d H w).2.host ∧
      (hostCallsShim d H w).2.host = (d H w.host).2 ∧
      (hostCallsShim d H w).1 = (hostCallsDownstream d H w).1 ∧
      withoutShimEvents (hostCallsShim d H w).2.trace =
        withoutShimEvents (hostCallsDownstream d H w).2.trace := by
  refine ⟨?_, hostCallsShim_host d H w, ?_, ?_⟩
  · rw [hostCallsShim_host, hostCallsDownstream_host]
  · rw [hostCallsShim_outcome, hostCallsDownstream_outcome]
  · rw [hostCallsShim_eq, hostCallsDownstream_eq]
    have hne : downstreamName ≠ shimName := fun h => shimName_ne_downstreamName h.symm
    rcases h : (d H w.host).1 with e | ⟨⟩ <;>
      simp [withoutShimEvents_append, withoutShimEvents, hne]

/-- C3: the shim validates nothing and has no failure of its own.  For every
handle `H` the routine is called with `H` and the outer call has the outcome of
the routine: it fails with `e` exactly when the routine fails with `e`, and
completes exactly when the routine completes.  The null handle is forwarded
like any other, and the routine is run on it. -/
theorem C3_transparent_pass_through {σ ε : Type} (d : Routine σ ε)
    (H : FlPluginRegistrarPtr) (w : World σ) :
    downstreamCalls (hostCallsShim d H w).2.trace = downstreamCalls w.trace ++ [H] ∧
      (hostCallsShim d H w).1 = (d H w.host).1 ∧
      (∀ e : ε, (hostCallsShim d H w).1 = Except.error e ↔ (d H w.host).1 = Except.error e) ∧
      ((hostCallsShim d H w).1 = Except.ok () ↔ (d H w.host).1 = Except.ok ()) ∧
      downstreamCalls (hostCallsShim d NULL w).2.trace = downstreamCalls w.trace ++ [NULL] ∧
      (hostCallsShim d NULL w).1 = (d NULL w.host).1 ∧
      (hostCallsShim d NULL w).2.host = (d NULL w.host).2 := by
  refine ⟨hostCallsShim_downstreamCalls d H w, hostCallsShim_outcome d H w, ?_, ?_,
    hostCallsShim_downstreamCalls d NULL w, hostCallsShim_outcome d NULL w,
    hostCallsShim_host d NULL w⟩
  · intro e
    rw [hostCallsShim_outcome]
  · rw [hostCallsShim_outcome]

/-- C6: the shim keeps nothing between calls.  For every list of handles
`H1..Hn`, calling the shim on each in turn adds to the log exactly `n` calls of
the downstream routine, with arguments `H1..Hn` in that order; the outcomes and
the final host state are those of calling the routine directly on each; and
whatever handles came first, the call made for a handle `H` that comes last
forwards `H`. -/
theorem C6_sequence_forwarded_in_order {σ ε : Type} (d : Routine σ ε)
    (hs : List FlPluginRegistrarPtr) (w : World σ) :
    downstreamCalls (hostCallsShimEach d hs w).2.trace = downstreamCalls w.trace ++ hs ∧
      (downstreamCalls (hostCallsShimEach d hs w).2.trace).length =
        (downstreamCalls w.trace).length + hs.length ∧
      (hostCallsShimEach d hs w).1 = (hostCallsDownstreamEach d hs w).1 ∧
      (hostCallsShimEach d hs w).2.host = (hostCallsDownstreamEach d hs w).2.host ∧
      (∀ (pre : List FlPluginRegistrarPtr) (H : FlPluginRegistrarPtr),
        downstreamCalls (hostCallsShimEach d (pre ++ [H]) w).2.trace =
          downstreamCalls (hostCallsShimEach d pre w).2.trace ++ [H]) := by
  refine ⟨hostCallsShimEach_downstreamCalls d hs w, ?_,
    (hostCallsShimEach_agrees d hs w w rfl).1, (hostCallsShimEach_agrees d hs w w rfl).2, ?_⟩
  · rw [hostCallsShimEach_downstreamCalls, List.length_append]
  · intro pre H
    rw [hostCallsShimEach_downstreamCalls, hostCallsShimEach_downstreamCalls,
      List.append_assoc]

/-! ## The export macro of the two headers -/

/-- C4: on the Linux target the annotation in front of the declaration of
`flutterpy_plugin_c_api_register_with_registrar` is selected by
`FLUTTER_PLUGIN_IMPL`.  With the flag defined it is
`__attribute__((visibility("default")))`, and the symbol is exported with
default visibility; with the flag not defined `FLUTTER_PLUGIN_EXPORT` is empty
(line 9 of the header), the declaration is an ordinary external one, and the
symbol is imported.  The annotation is the export attribute if and only if the
flag is defined and empty if and only if it is not.  In both builds, and in C as
in C++, the declaration is a `void` function of one parameter
`FlPluginRegistrar* registrar`. -/
theorem C4_linux_visibility_selected_by_flag (impl cplusplus : Bool) :
    ∃ d : FunDecl, linuxDecl impl cplusplus = some d ∧
      visibilityOf d.annotation =
        some (if impl then Visibility.exported else Visibility.imported) ∧
      (d.annotation =
          ["__attribute__", "(", "(", "visibility", "(", "\"default\"", ")", ")", ")"] ↔
        impl = true) ∧
      (d.annotation = [] ↔ impl = false) ∧
      d.name = shimName ∧
      d.returnType = "void" ∧
      d.params = [["FlPluginRegistrar", "*", "registrar"]] := by
  cases impl <;> cases cplusplus <;> exact ⟨_, rfl, by decide⟩

/-- C5: on the Windows target the annotation in front of the declaration of
`FlutterpyPluginRegisterWithRegistrar` is `__declspec(dllexport)` if and only if
`FLUTTER_PLUGIN_IMPL` is defined, and `__declspec(dllimport)` if and only if it
is not, so the symbol is exported in the first build and imported in the second;
in both, and in C as in C++, the declaration returns `void` and takes exactly
one parameter, `FlutterDesktopPluginRegistrarRef registrar`. -/
theorem C5_windows_dllexport_iff_flag (impl cplusplus : Bool) :
    ∃ d : FunDecl, windowsDecl impl cplusplus = some d ∧
      (d.annotation = ["__declspec", "(", "dllexport", ")"] ↔ impl = true) ∧
      (d.annotation = ["__declspec", "(", "dllimport", ")"] ↔ impl = false) ∧
      visibilityOf d.annotation =
        some (if impl then Visibility.exported else Visibility.imported) ∧
      d.name = "FlutterpyPluginRegisterWithRegistrar" ∧
      d.returnType = "void" ∧
      d.params = [["FlutterDesktopPluginRegistrarRef", "registrar"]] ∧
      d.params.length = 1 := by
  cases impl <;> cases cplusplus <;> exact ⟨_, rfl, by decide⟩

end Flutterpy
